import Mathlib

/-!
Shallow embedding of the `gphoto-rs` wrapper library (src/src/error.rs,
src/src/context.rs, src/src/camera.rs, src/src/media.rs) in Lean 4, together
with theorems settling the specification claims about it.

The native `libgphoto2` layer (crate `gphoto2-sys`) and the C library calls
(`libc::open`, `libc::close`, `CStr`, `str::from_utf8`) are external
collaborators of this repository; they are modelled explicitly: status-code
constants carry their documented libgphoto2 header values, and each native
call's outcome is passed in as an explicit environment argument, so that the
wrapper code's own branching — which is what the claims are about — is
translated verbatim from the Rust source.
-/

namespace Gphoto

/-! ### Native status codes

Constants of the `gphoto2-sys` collaborator crate, with their documented
values from the libgphoto2 headers (`gphoto2-result.h`, `gphoto2-port-result.h`).
-/

def GP_OK : Int := 0

def GP_ERROR : Int := -1

def GP_ERROR_BAD_PARAMETERS : Int := -2

def GP_ERROR_NO_MEMORY : Int := -3

def GP_ERROR_NOT_SUPPORTED : Int := -6

def GP_ERROR_CORRUPTED_DATA : Int := -102

def GP_ERROR_FILE_EXISTS : Int := -103

def GP_ERROR_MODEL_NOT_FOUND : Int := -105

def GP_ERROR_DIRECTORY_NOT_FOUND : Int := -107

def GP_ERROR_FILE_NOT_FOUND : Int := -108

def GP_ERROR_DIRECTORY_EXISTS : Int := -109

def GP_ERROR_CAMERA_BUSY : Int := -110

def GP_ERROR_PATH_NOT_ABSOLUTE : Int := -111

def GP_ERROR_CANCEL : Int := -112

def GP_ERROR_CAMERA_ERROR : Int := -113

def GP_ERROR_OS_FAILURE : Int := -114

def GP_ERROR_NO_SPACE : Int := -115

/-! ### error.rs — the error type and its classification -/

/-- The `ErrorKind` enum of src/src/error.rs lines 14-59, verbatim: fifteen
variants, ending in the catch-all `Other`. -/
inductive ErrorKind where
  | InvalidInput
  | NotSupported
  | CorruptedData
  | ModelNotFound
  | FileExists
  | DirectoryExists
  | DirectoryNotFound
  | FileNotFound
  | CameraBusy
  | PathNotAbsolute
  | Cancel
  | CameraError
  | OSFailure
  | NoSpace
  | Other
deriving DecidableEq, Repr

/-- The Rust source name of each `ErrorKind` variant (the constructor
identifier as written in src/src/error.rs). -/
def ErrorKind.name : ErrorKind → String
  | .InvalidInput => "InvalidInput"
  | .NotSupported => "NotSupported"
  | .CorruptedData => "CorruptedData"
  | .ModelNotFound => "ModelNotFound"
  | .FileExists => "FileExists"
  | .DirectoryExists => "DirectoryExists"
  | .DirectoryNotFound => "DirectoryNotFound"
  | .FileNotFound => "FileNotFound"
  | .CameraBusy => "CameraBusy"
  | .PathNotAbsolute => "PathNotAbsolute"
  | .Cancel => "Cancel"
  | .CameraError => "CameraError"
  | .OSFailure => "OSFailure"
  | .NoSpace => "NoSpace"
  | .Other => "Other"

/-- The `Error` struct of src/src/error.rs lines 62-65: a wrapped native
status code (`err: c_int`). -/
structure Error where
  err : Int
deriving DecidableEq, Repr

/-- `Error::kind` (src/src/error.rs lines 69-88): a match on the native code
against the fifteen listed constants, with a trailing wildcard arm returning
`Other`.  A Rust match over distinct integer constants is a sequence of
equality tests, rendered here as an if-chain in source order. -/
def Error.kind (e : Error) : ErrorKind :=
  if e.err = GP_ERROR_BAD_PARAMETERS then .InvalidInput
  else if e.err = GP_ERROR_NOT_SUPPORTED then .NotSupported
  else if e.err = GP_ERROR_CORRUPTED_DATA then .CorruptedData
  else if e.err = GP_ERROR_FILE_EXISTS then .FileExists
  else if e.err = GP_ERROR_MODEL_NOT_FOUND then .ModelNotFound
  else if e.err = GP_ERROR_DIRECTORY_NOT_FOUND then .DirectoryNotFound
  else if e.err = GP_ERROR_FILE_NOT_FOUND then .FileNotFound
  else if e.err = GP_ERROR_DIRECTORY_EXISTS then .DirectoryExists
  else if e.err = GP_ERROR_CAMERA_BUSY then .CameraBusy
  else if e.err = GP_ERROR_PATH_NOT_ABSOLUTE then .PathNotAbsolute
  else if e.err = GP_ERROR_CANCEL then .Cancel
  else if e.err = GP_ERROR_CAMERA_ERROR then .CameraError
  else if e.err = GP_ERROR_OS_FAILURE then .OSFailure
  else if e.err = GP_ERROR_NO_SPACE then .NoSpace
  else if e.err = GP_ERROR then .Other
  else .Other

/-- `error::from_libgphoto2` (src/src/error.rs lines 113-115). -/
def from_libgphoto2 (err : Int) : Error :=
  Error.mk err

/-- The set of native codes that appear as explicit (non-wildcard) match arms
in `Error::kind`. -/
def mappedCodes : List Int :=
  [GP_ERROR_BAD_PARAMETERS, GP_ERROR_NOT_SUPPORTED, GP_ERROR_CORRUPTED_DATA,
   GP_ERROR_FILE_EXISTS, GP_ERROR_MODEL_NOT_FOUND, GP_ERROR_DIRECTORY_NOT_FOUND,
   GP_ERROR_FILE_NOT_FOUND, GP_ERROR_DIRECTORY_EXISTS, GP_ERROR_CAMERA_BUSY,
   GP_ERROR_PATH_NOT_ABSOLUTE, GP_ERROR_CANCEL, GP_ERROR_CAMERA_ERROR,
   GP_ERROR_OS_FAILURE, GP_ERROR_NO_SPACE, GP_ERROR]

/-! ### context.rs — the Session wrapper -/

/-- An opaque native pointer, as returned by the native allocator
`gp_context_new`: either null or a valid handle (identified by a number). -/
inductive NativePtr where
  | null
  | valid (id : Nat)
deriving DecidableEq, Repr

/-- The `Context` struct of src/src/context.rs lines 4-6: a raw pointer to the
native `GPContext`. -/
structure Context where
  context : NativePtr
deriving DecidableEq, Repr

/-- `Context::new` (src/src/context.rs lines 10-21), as a function of the
pointer the native allocator `gp_context_new` returned: a non-null pointer is
wrapped, a null pointer yields `Err(from_libgphoto2(GP_ERROR_NO_MEMORY))`. -/
def Context.new (allocated : NativePtr) : Except Error Context :=
  match allocated with
  | .valid id => .ok (Context.mk (.valid id))
  | .null => .error (from_libgphoto2 GP_ERROR_NO_MEMORY)

/-! ### UTF-8 validity

Model of Rust's `str::from_utf8` validity check (`CStr::to_str` succeeds
exactly on valid UTF-8), over the byte contents of a NUL-terminated C string
(bytes before the terminator, so none of them is 0).  Encodes the UTF-8
well-formedness table used by the Rust standard library: ASCII; two-byte
sequences C2-DF; three-byte sequences E0 (A0-BF), E1-EC/EE/EF (80-BF),
ED (80-9F, excluding surrogates); four-byte sequences F0 (90-BF),
F1-F3 (80-BF), F4 (80-8F). -/

/-- A UTF-8 continuation byte: 0x80-0xBF. -/
def isCont (b : Nat) : Bool :=
  0x80 ≤ b && b ≤ 0xBF

/-- UTF-8 validity of a byte sequence. -/
def utf8Valid : List Nat → Bool
  | [] => true
  | b :: rest =>
    if b ≤ 0x7F then utf8Valid rest
    else if 0xC2 ≤ b && b ≤ 0xDF then
      match rest with
      | c1 :: rest2 => isCont c1 && utf8Valid rest2
      | [] => false
    else if b = 0xE0 then
      match rest with
      | c1 :: c2 :: rest2 => (0xA0 ≤ c1 && c1 ≤ 0xBF) && isCont c2 && utf8Valid rest2
      | _ => false
    else if b = 0xED then
      match rest with
      | c1 :: c2 :: rest2 => (0x80 ≤ c1 && c1 ≤ 0x9F) && isCont c2 && utf8Valid rest2
      | _ => false
    else if 0xE1 ≤ b && b ≤ 0xEF then
      match rest with
      | c1 :: c2 :: rest2 => isCont c1 && isCont c2 && utf8Valid rest2
      | _ => false
    else if b = 0xF0 then
      match rest with
      | c1 :: c2 :: c3 :: rest2 =>
        (0x90 ≤ c1 && c1 ≤ 0xBF) && isCont c2 && isCont c3 && utf8Valid rest2
      | _ => false
    else if 0xF1 ≤ b && b ≤ 0xF3 then
      match rest with
      | c1 :: c2 :: c3 :: rest2 => isCont c1 && isCont c2 && isCont c3 && utf8Valid rest2
      | _ => false
    else if b = 0xF4 then
      match rest with
      | c1 :: c2 :: c3 :: rest2 =>
        (0x80 ≤ c1 && c1 ≤ 0x8F) && isCont c2 && isCont c3 && utf8Valid rest2
      | _ => false
    else false

/-! ### camera.rs util — native text conversion -/

/-- `util::camera_text_to_string` (src/src/camera.rs lines 318-326), as a
function of the byte contents of the `CameraText` buffer (up to its NUL
terminator).  `CStr::to_str` succeeds exactly when the bytes are valid UTF-8;
on failure the source maps the error to `Error { err: -1 }`. -/
def camera_text_to_string (text : List Nat) : Except Error (List Nat) :=
  if utf8Valid text then .ok text
  else .error (Error.mk (-1))

/-- Outcome of one native text-fetching call (`gp_camera_get_summary`,
`gp_camera_get_manual`, `gp_camera_get_about`): a status code, and when the
status is `GP_OK`, the byte contents of the filled `CameraText` buffer. -/
inductive TextFetch where
  | fails (status : Int)
  | fills (text : List Nat)
deriving DecidableEq, Repr

/-- `Camera::summary` (src/src/camera.rs lines 214-233), as a function of the
native call's outcome: a non-`GP_OK` status is returned via
`from_libgphoto2`; on success the buffer goes through
`util::camera_text_to_string`.  (`Camera::manual` and `Camera::about_driver`
are textually identical but for the native function called.) -/
def Camera.summary (native : TextFetch) : Except Error (List Nat) :=
  match native with
  | .fails status => .error (from_libgphoto2 status)
  | .fills text => camera_text_to_string text

/-! ### error.rs — `Error::message` -/

/-- Result of the native lookup `gp_result_as_string(code)`: a C string
pointer, either null or pointing at NUL-terminated bytes. -/
inductive CStrResult where
  | nullPtr
  | bytes (bs : List Nat)
deriving DecidableEq, Repr

/-- Observable outcome of running `Error::message`: either a well-formed
`&str` holding the given bytes, or undefined behaviour. -/
inductive MessageOutcome where
  | safeString (s : List Nat)
  | undefinedBehaviour
deriving DecidableEq, Repr

/-- `Error::message` (src/src/error.rs lines 91-98), as a function of what the
native lookup returned.  The source runs
`str::from_utf8_unchecked(CStr::from_ptr(gp_result_as_string(self.err)).to_bytes())`
with no checks: `CStr::from_ptr` on a null pointer is undefined behaviour, and
`from_utf8_unchecked` on bytes that are not valid UTF-8 violates the `str`
validity invariant, which is undefined behaviour; only a non-null valid-UTF-8
lookup result yields a well-formed string. -/
def Error.message (lookup : CStrResult) : MessageOutcome :=
  match lookup with
  | .nullPtr => .undefinedBehaviour
  | .bytes bs => if utf8Valid bs then .safeString bs else .undefinedBehaviour

/-! ### media.rs — `FileMedia::create_internal`

The operating-system and native-library state that `create_internal` touches:
the filesystem (paths with file contents, a path being a list of its bytes)
and the number of file descriptors the process holds open. -/

/-- System state threaded through `FileMedia::create_internal`: the files on
disk (path bytes paired with content bytes) and the count of open file
descriptors. -/
structure SysState where
  files : List (List Nat × List Nat)
  openFds : Nat
deriving DecidableEq, Repr

/-- Whether a path exists on the filesystem. -/
def SysState.hasPath (st : SysState) (path : List Nat) : Bool :=
  st.files.any (fun f => f.1 = path)

/-- Reasons `open(2)` can fail even though the path does not name an existing
file: missing parent directory, insufficient permissions, or any other
OS-level error identified by its errno. -/
inductive OpenDenied where
  | noParentDir
  | accessDenied
  | otherOs (errno : Nat)
deriving DecidableEq, Repr

/-- Environment for one `FileMedia::create_internal` run: whether the OS
denies the `open(2)` call for a reason other than an existing file, and the
status `gp_file_new_from_fd` returns together with the pointer it fills on
`GP_OK`. -/
structure MediaEnv where
  denial : Option OpenDenied
  wrapStatus : Int
  wrapPtr : NativePtr
deriving DecidableEq, Repr

/-- Model of `libc::open(path, O_CREAT | O_EXCL | O_RDWR, 0o644)` (external
collaborator): with `O_CREAT | O_EXCL`, an existing path fails with `EEXIST`;
otherwise the environment may deny the call for another reason; otherwise an
empty file is created, a fresh descriptor is opened and its number returned.
Failure leaves the state unchanged. -/
def osOpenExcl (st : SysState) (env : MediaEnv) (path : List Nat) :
    Option (Nat × SysState) :=
  if st.hasPath path then none
  else match env.denial with
    | some _ => none
    | none =>
      some (st.openFds,
            { files := (path, []) :: st.files, openFds := st.openFds + 1 })

/-- The `FileMedia` struct of src/src/media.rs lines 18-20: a raw pointer to
the native `CameraFile`. -/
structure FileMedia where
  file : NativePtr
deriving DecidableEq, Repr

/-- `FileMedia::create_internal` (src/src/media.rs lines 60-94), translated
branch for branch and returning the result together with the final system
state:
a path with an interior NUL byte makes `CString::new` fail and returns
`Err(GP_ERROR_BAD_PARAMETERS)` before any system call; a failed `open(2)`
(`fd < 0`, whatever the errno) returns `Err(GP_ERROR_FILE_EXISTS)`; a
non-`GP_OK` status from `gp_file_new_from_fd` closes the descriptor with
`libc::close(fd)` and returns that status as the error; otherwise the wrapped
pointer is returned as a `FileMedia`. -/
def FileMedia.create_internal (st : SysState) (env : MediaEnv) (path : List Nat) :
    Except Error FileMedia × SysState :=
  if path.contains 0 then
    (.error (from_libgphoto2 GP_ERROR_BAD_PARAMETERS), st)
  else
    match osOpenExcl st env path with
    | none => (.error (from_libgphoto2 GP_ERROR_FILE_EXISTS), st)
    | some (_fd, st1) =>
      if env.wrapStatus = GP_OK then
        (.ok (FileMedia.mk env.wrapPtr), st1)
      else
        (.error (from_libgphoto2 env.wrapStatus),
         { st1 with openFds := st1.openFds - 1 })

/-! ### camera.rs — `Camera::storage` -/

/-- Modelled from the spec: a `StorageDescriptor` ("one filesystem's metadata
on the device", numeric and enum fields) — src/storage.rs is not present in
the sources, and `Camera::storage` treats its elements as opaque values, so
an element is modelled by an opaque identifier. -/
structure Storage where
  id : Nat
deriving DecidableEq, Repr

/-- Outcome of the native call `gp_camera_get_storageinfo`: a status code,
and when the status is `GP_OK`, the heap array it allocated (as the list of
its elements) together with the length it reported. -/
inductive StorageFetch where
  | fails (status : Int)
  | fills (arr : List Storage) (len : Nat)
deriving DecidableEq, Repr

/-- `Camera::storage` (src/src/camera.rs lines 178-201), as a function of the
native call's outcome: a non-`GP_OK` status is returned via
`from_libgphoto2`; on success the source runs
`Vec::from_raw_parts(storage, length, length)`, taking ownership of exactly
`length` elements of the native array — modelled as taking the first `len`
elements of the heap array. -/
def Camera.storage (native : StorageFetch) : Except Error (List Storage) :=
  match native with
  | .fails status => .error (from_libgphoto2 status)
  | .fills arr len => .ok (arr.take len)

/-! ### Native-call traces: reference counting and the device lifecycle

The reference-counting and lifecycle claims are about which native calls the
wrapper emits and in what order, so those parts of the code are embedded as
the traces of native calls they perform. -/

/-- The native calls of the `gphoto2-sys` collaborator that the traced code
paths perform. -/
inductive NativeCall where
  | gp_context_new
  | gp_context_ref
  | gp_context_unref
  | gp_camera_new
  | gp_camera_init
  | gp_camera_unref
  | gp_camera_capture
  | gp_camera_exit
deriving DecidableEq, Repr

/-- Body of `impl Drop for Camera` (src/src/camera.rs lines 26-33): it calls
`gp_camera_unref(self.camera)` and then `gp_context_unref(self.context.context)`. -/
def cameraDropBody : List NativeCall :=
  [.gp_camera_unref, .gp_context_unref]

/-- Body of `impl Drop for Context` (src/src/context.rs lines 23-29): it calls
`gp_context_unref(self.context)`. -/
def contextDropBody : List NativeCall :=
  [.gp_context_unref]

/-- The native calls emitted when a `Camera` value is dropped.  Rust's drop
glue first runs `Drop::drop` for `Camera` itself, then drops each field in
declaration order; `Camera`'s `context: Context` field has its own `Drop`
impl, which therefore also runs. -/
def cameraDropEvents : List NativeCall :=
  cameraDropBody ++ contextDropBody

/-- The native calls performed by a fully successful `Camera::autodetect`
(src/src/camera.rs lines 37-58): one `gp_context_new` (inside
`Context::new`), one `gp_camera_new`, one `gp_camera_init`.  No call to
`gp_context_ref` appears anywhere in the source, so the single reference
obtained from `gp_context_new` is the only one ever held. -/
def autodetectCalls : List NativeCall :=
  [.gp_context_new, .gp_camera_new, .gp_camera_init]

/-- The native calls performed by a successful `Camera::capture_image`
(src/src/camera.rs lines 61-80): `gp_camera_capture`, then unconditionally
`gp_camera_exit`.  No `gp_camera_init` appears in this function. -/
def captureImageCalls : List NativeCall :=
  [.gp_camera_capture, .gp_camera_exit]

/-- Device lifecycle states of the spec's DeviceHandle state machine:
`initialized` is the idle, ready state entered by `gp_camera_init`;
`exited` is the de-initialized state entered by `gp_camera_exit`. -/
inductive CamState where
  | created
  | initialized
  | exited
deriving DecidableEq, Repr

/-- Effect of one native call on the device lifecycle state (behaviour of the
libgphoto2 collaborator): `gp_camera_init` initializes the device,
`gp_camera_exit` de-initializes it, other calls leave the lifecycle state
unchanged. -/
def stepCam (s : CamState) : NativeCall → CamState
  | .gp_camera_init => .initialized
  | .gp_camera_exit => .exited
  | _ => s

/-- The device lifecycle state after a trace of native calls. -/
def runCam (s : CamState) (t : List NativeCall) : CamState :=
  t.foldl stepCam s

/-! ### Theorems settling the claims -/

/-- C2: `Error::kind` is a pure, total function over all native integer
status codes: every code in the mapped set returns its documented
`ErrorKind` (in particular `GP_ERROR_BAD_PARAMETERS` maps to `InvalidInput`
and `GP_ERROR_FILE_EXISTS` maps to `FileExists`), and every code outside that
set returns `Other` — the function is defined on all of `Int`, so it can
never panic. -/
theorem error_kind_total_classification (c : Int) :
    (Error.mk GP_ERROR_BAD_PARAMETERS).kind = ErrorKind.InvalidInput ∧
    (Error.mk GP_ERROR_NOT_SUPPORTED).kind = ErrorKind.NotSupported ∧
    (Error.mk GP_ERROR_CORRUPTED_DATA).kind = ErrorKind.CorruptedData ∧
    (Error.mk GP_ERROR_FILE_EXISTS).kind = ErrorKind.FileExists ∧
    (Error.mk GP_ERROR_MODEL_NOT_FOUND).kind = ErrorKind.ModelNotFound ∧
    (Error.mk GP_ERROR_DIRECTORY_NOT_FOUND).kind = ErrorKind.DirectoryNotFound ∧
    (Error.mk GP_ERROR_FILE_NOT_FOUND).kind = ErrorKind.FileNotFound ∧
    (Error.mk GP_ERROR_DIRECTORY_EXISTS).kind = ErrorKind.DirectoryExists ∧
    (Error.mk GP_ERROR_CAMERA_BUSY).kind = ErrorKind.CameraBusy ∧
    (Error.mk GP_ERROR_PATH_NOT_ABSOLUTE).kind = ErrorKind.PathNotAbsolute ∧
    (Error.mk GP_ERROR_CANCEL).kind = ErrorKind.Cancel ∧
    (Error.mk GP_ERROR_CAMERA_ERROR).kind = ErrorKind.CameraError ∧
    (Error.mk GP_ERROR_OS_FAILURE).kind = ErrorKind.OSFailure ∧
    (Error.mk GP_ERROR_NO_SPACE).kind = ErrorKind.NoSpace ∧
    (Error.mk GP_ERROR).kind = ErrorKind.Other ∧
    (c ∉ mappedCodes → (Error.mk c).kind = ErrorKind.Other) := by
  refine ⟨by decide, by decide, by decide, by decide, by decide, by decide,
    by decide, by decide, by decide, by decide, by decide, by decide,
    by decide, by decide, by decide, ?_⟩
  intro h
  simp only [mappedCodes, List.mem_cons, List.not_mem_nil, or_false, not_or] at h
  obtain ⟨h1, h2, h3, h4, h5, h6, h7, h8, h9, h10, h11, h12, h13, h14, h15⟩ := h
  simp [Error.kind, h1, h2, h3, h4, h5, h6, h7, h8, h9, h10, h11, h12, h13, h14, h15]

/-- Witness for C2: the unmapped code 42 classifies as `Other`. -/
theorem error_kind_total_classification_witness :
    (42 : Int) ∉ mappedCodes ∧ (Error.mk 42).kind = ErrorKind.Other :=
  ⟨by decide,
   (error_kind_total_classification 42).2.2.2.2.2.2.2.2.2.2.2.2.2.2.2 (by decide)⟩

/-- C3 counterexample: when the native allocator returns null, `Context::new`
returns the error `GP_ERROR_NO_MEMORY`, whose kind is `Other`; and the closed
`ErrorKind` taxonomy of the code has no variant named `ResourceExhausted`, so
the claimed kind does not exist, let alone get returned. -/
theorem context_new_null_not_resource_exhausted :
    (∃ e, Context.new .null = .error e ∧ e.kind = ErrorKind.Other) ∧
    ¬ ∃ k : ErrorKind, k.name = "ResourceExhausted" := by
  constructor
  · exact ⟨Error.mk GP_ERROR_NO_MEMORY, rfl, by decide⟩
  · rintro ⟨k, hk⟩
    cases k <;> exact absurd hk (by decide)

/-- C3 amended: when the native session allocator returns null, `Context::new`
returns an error carrying the native code `GP_ERROR_NO_MEMORY`, and that
error's kind is the catch-all `Other` (the 15-variant `ErrorKind` taxonomy
contains no `ResourceExhausted`). -/
theorem context_new_null_no_memory :
    Context.new .null = .error (Error.mk GP_ERROR_NO_MEMORY) ∧
    (Error.mk GP_ERROR_NO_MEMORY).kind = ErrorKind.Other :=
  ⟨rfl, by decide⟩

/-- C4: when the native text-fetching call succeeds but the returned buffer is
not valid UTF-8 (here the single byte 0xFF), `summary` returns
`Error { err: -1 }`, i.e. the code `GP_ERROR`, whose kind is `Other` — not
`CorruptedData` as the claim and the function's own doc comment state; the
`NotSupported` failure mode does behave as documented.  No text is returned in
either failure case. -/
theorem summary_invalid_utf8_not_corrupted_data :
    Camera.summary (.fills [0xFF]) = .error (Error.mk (-1)) ∧
    (-1 : Int) = GP_ERROR ∧
    (Error.mk (-1)).kind = ErrorKind.Other ∧
    ErrorKind.Other ≠ ErrorKind.CorruptedData ∧
    Camera.summary (.fails GP_ERROR_NOT_SUPPORTED) =
      .error (Error.mk GP_ERROR_NOT_SUPPORTED) ∧
    (Error.mk GP_ERROR_NOT_SUPPORTED).kind = ErrorKind.NotSupported := by
  refine ⟨rfl, by decide, by decide, by decide, rfl, by decide⟩

/-- C5 counterexample: `Error::message` is not safe for every native lookup
outcome: when `gp_result_as_string` yields a null pointer, or a non-UTF-8
byte string (here the single byte 0xFF), executing the unchecked conversions
in `message` is undefined behaviour, not a safe string. -/
theorem message_null_or_invalid_is_ub :
    Error.message .nullPtr = MessageOutcome.undefinedBehaviour ∧
    Error.message (.bytes [0xFF]) = MessageOutcome.undefinedBehaviour ∧
    ¬ ∃ s, Error.message .nullPtr = MessageOutcome.safeString s := by
  refine ⟨rfl, by decide, ?_⟩
  rintro ⟨s, hs⟩
  simp [Error.message] at hs

/-- C5 amended: `Error::message` never returns an error value — whenever the
native lookup returns a non-null pointer to valid UTF-8 bytes it yields those
bytes as a well-formed string — but it performs `CStr::from_ptr` and
`str::from_utf8_unchecked` without any check, so on a null pointer or
non-UTF-8 lookup result the behaviour is undefined rather than a safe
fallback string. -/
theorem message_valid_lookup_safe (bs : List Nat) (h : utf8Valid bs = true) :
    Error.message (.bytes bs) = MessageOutcome.safeString bs := by
  simp [Error.message, h]

/-- Witness for the amended C5: the ASCII bytes of "hi" are returned as a safe
string. -/
theorem message_valid_lookup_safe_witness :
    Error.message (.bytes [104, 105]) = MessageOutcome.safeString [104, 105] :=
  message_valid_lookup_safe [104, 105] (by decide)

/-- C6: `FileMedia::create` at a path that already contains a file fails with
an error of kind `FileExists` and leaves the system state untouched (no write
to that file); at a fresh path, with the OS permitting the open and the
native wrap succeeding, it returns `Ok` and the filesystem gains an empty
file at that path. -/
theorem file_media_create_exclusive (st : SysState) (env : MediaEnv)
    (path : List Nat) (hnul : path.contains 0 = false) :
    (st.hasPath path = true →
      (FileMedia.create_internal st env path).1 =
        .error (Error.mk GP_ERROR_FILE_EXISTS) ∧
      (Error.mk GP_ERROR_FILE_EXISTS).kind = ErrorKind.FileExists ∧
      (FileMedia.create_internal st env path).2 = st) ∧
    (st.hasPath path = false → env.denial = none → env.wrapStatus = GP_OK →
      (FileMedia.create_internal st env path).1 = .ok (FileMedia.mk env.wrapPtr) ∧
      (FileMedia.create_internal st env path).2.files = (path, []) :: st.files) := by
  have hn : (0 : Nat) ∉ path := by simpa using hnul
  constructor
  · intro hex
    refine ⟨?_, by decide, ?_⟩ <;>
      simp [FileMedia.create_internal, osOpenExcl, hn, hex, from_libgphoto2]
  · intro hfresh hdeny hwrap
    constructor <;>
      simp [FileMedia.create_internal, osOpenExcl, hn, hfresh, hdeny, hwrap]

/-- Witness for C6: with the single file "a" (byte 97) on disk, creating at
"a" fails leaving the state unchanged, and creating at "c" (byte 99)
succeeds, adding an empty file. -/
theorem file_media_create_exclusive_witness :
    (FileMedia.create_internal ⟨[([97], [])], 5⟩ ⟨none, GP_OK, .valid 7⟩ [97]).1 =
      .error (Error.mk GP_ERROR_FILE_EXISTS) ∧
    (FileMedia.create_internal ⟨[([97], [])], 5⟩ ⟨none, GP_OK, .valid 7⟩ [97]).2 =
      ⟨[([97], [])], 5⟩ ∧
    (FileMedia.create_internal ⟨[([97], [])], 5⟩ ⟨none, GP_OK, .valid 7⟩ [99]).1 =
      .ok (FileMedia.mk (.valid 7)) ∧
    (FileMedia.create_internal ⟨[([97], [])], 5⟩ ⟨none, GP_OK, .valid 7⟩ [99]).2.files =
      [([99], []), ([97], [])] :=
  ⟨((file_media_create_exclusive ⟨[([97], [])], 5⟩ ⟨none, GP_OK, .valid 7⟩ [97]
      (by decide)).1 (by decide)).1,
   ((file_media_create_exclusive ⟨[([97], [])], 5⟩ ⟨none, GP_OK, .valid 7⟩ [97]
      (by decide)).1 (by decide)).2.2,
   ((file_media_create_exclusive ⟨[([97], [])], 5⟩ ⟨none, GP_OK, .valid 7⟩ [99]
      (by decide)).2 (by decide) (by decide) (by decide)).1,
   ((file_media_create_exclusive ⟨[([97], [])], 5⟩ ⟨none, GP_OK, .valid 7⟩ [99]
      (by decide)).2 (by decide) (by decide) (by decide)).2⟩

/-- C7: when `gp_file_new_from_fd` fails after the descriptor was opened,
`FileMedia::create_internal` closes the descriptor before returning the
error: the final count of open descriptors equals the initial one, so
repeated failing attempts leak no descriptors. -/
theorem file_media_create_wrap_fail_closes_fd (st : SysState) (env : MediaEnv)
    (path : List Nat) (hnul : path.contains 0 = false)
    (hfresh : st.hasPath path = false) (hdeny : env.denial = none)
    (hwrap : env.wrapStatus ≠ GP_OK) :
    (FileMedia.create_internal st env path).1 =
      .error (Error.mk env.wrapStatus) ∧
    (FileMedia.create_internal st env path).2.openFds = st.openFds := by
  have hn : (0 : Nat) ∉ path := by simpa using hnul
  constructor <;>
    simp [FileMedia.create_internal, osOpenExcl, hn, hfresh, hdeny, hwrap,
      from_libgphoto2]

/-- Witness for C7: a failing wrap (status `GP_ERROR_NO_MEMORY`) at the fresh
path "c" returns that error and restores the descriptor count to 5. -/
theorem file_media_create_wrap_fail_closes_fd_witness :
    (FileMedia.create_internal ⟨[([97], [])], 5⟩ ⟨none, GP_ERROR_NO_MEMORY, .null⟩
        [99]).1 = .error (Error.mk GP_ERROR_NO_MEMORY) ∧
    (FileMedia.create_internal ⟨[([97], [])], 5⟩ ⟨none, GP_ERROR_NO_MEMORY, .null⟩
        [99]).2.openFds = 5 :=
  file_media_create_wrap_fail_closes_fd ⟨[([97], [])], 5⟩
    ⟨none, GP_ERROR_NO_MEMORY, .null⟩ [99] (by decide) (by decide) (by decide)
    (by decide)

/-- C10: `FileMedia::create_internal` maps every `open(2)` failure — whatever
the OS reason (missing parent directory, insufficient permissions, any other
errno), not only an existing file — to an error of kind `FileExists`; and a
path with an interior NUL byte yields an error of kind `InvalidInput` with
the system state untouched (no filesystem access at all). -/
theorem file_media_create_open_failure_kinds (st : SysState) (env : MediaEnv)
    (path : List Nat) (d : OpenDenied) :
    (path.contains 0 = false → env.denial = some d →
      (FileMedia.create_internal st env path).1 =
        .error (Error.mk GP_ERROR_FILE_EXISTS) ∧
      (Error.mk GP_ERROR_FILE_EXISTS).kind = ErrorKind.FileExists) ∧
    (path.contains 0 = true →
      (FileMedia.create_internal st env path).1 =
        .error (Error.mk GP_ERROR_BAD_PARAMETERS) ∧
      (Error.mk GP_ERROR_BAD_PARAMETERS).kind = ErrorKind.InvalidInput ∧
      (FileMedia.create_internal st env path).2 = st) := by
  constructor
  · intro hnul hdeny
    have hn : (0 : Nat) ∉ path := by simpa using hnul
    refine ⟨?_, by decide⟩
    unfold FileMedia.create_internal osOpenExcl
    rcases h : st.hasPath path <;>
      simp [hn, hdeny, from_libgphoto2, h]
  · intro hnul
    have hn : (0 : Nat) ∈ path := by simpa using hnul
    refine ⟨?_, by decide, ?_⟩ <;>
      simp [FileMedia.create_internal, hn, from_libgphoto2]

/-- Witness for C10: at the fresh path "c" with access denied by the OS, the
error kind is `FileExists`; at the NUL-containing path the error kind is
`InvalidInput` and the state is unchanged. -/
theorem file_media_create_open_failure_kinds_witness :
    (FileMedia.create_internal ⟨[([97], [])], 5⟩ ⟨some .accessDenied, GP_OK, .null⟩
        [99]).1 = .error (Error.mk GP_ERROR_FILE_EXISTS) ∧
    (FileMedia.create_internal ⟨[([97], [])], 5⟩ ⟨some .accessDenied, GP_OK, .null⟩
        [98, 0, 99]).1 = .error (Error.mk GP_ERROR_BAD_PARAMETERS) ∧
    (FileMedia.create_internal ⟨[([97], [])], 5⟩ ⟨some .accessDenied, GP_OK, .null⟩
        [98, 0, 99]).2 = ⟨[([97], [])], 5⟩ :=
  ⟨((file_media_create_open_failure_kinds ⟨[([97], [])], 5⟩
      ⟨some .accessDenied, GP_OK, .null⟩ [99] .accessDenied).1 (by decide) rfl).1,
   ((file_media_create_open_failure_kinds ⟨[([97], [])], 5⟩
      ⟨some .accessDenied, GP_OK, .null⟩ [98, 0, 99] .accessDenied).2 (by decide)).1,
   ((file_media_create_open_failure_kinds ⟨[([97], [])], 5⟩
      ⟨some .accessDenied, GP_OK, .null⟩ [98, 0, 99] .accessDenied).2 (by decide)).2.2⟩

/-- C8: `Camera::storage` on a successful native call returns `Ok` with a
collection whose length equals the native reported length (requiring, as the
native layer guarantees, that the allocated array holds at least the reported
number of elements); in particular a reported length of zero yields `Ok` of
the empty collection, never an error; and a failing native call passes its
status through as the error. -/
theorem storage_length_matches (arr : List Storage) (len : Nat) (status : Int)
    (hlen : len ≤ arr.length) :
    Camera.storage (.fills arr len) = .ok (arr.take len) ∧
    (arr.take len).length = len ∧
    (len = 0 → Camera.storage (.fills arr len) = .ok []) ∧
    (status ≠ GP_OK → Camera.storage (.fails status) = .error (Error.mk status)) := by
  refine ⟨rfl, ?_, ?_, ?_⟩
  · simp [List.length_take, Nat.min_eq_left hlen]
  · intro h0
    simp [Camera.storage, h0]
  · intro hstatus
    simp [Camera.storage, from_libgphoto2]

/-- Witness for C8: a zero-length native array yields the empty collection,
and the error status `GP_ERROR` passes through. -/
theorem storage_length_matches_witness :
    Camera.storage (.fills [] 0) = .ok [] ∧
    Camera.storage (.fails GP_ERROR) = .error (Error.mk GP_ERROR) :=
  ⟨((storage_length_matches [] 0 GP_ERROR (by decide)).2.2.1 rfl),
   ((storage_length_matches [] 0 GP_ERROR (by decide)).2.2.2 (by decide))⟩

/-- C1: the claim of exactly one `gp_context_unref` per `Camera` drop is
violated by the code: `Camera::autodetect` acquires exactly one native
context reference (one `gp_context_new`, zero `gp_context_ref`), but
dropping the `Camera` emits two `gp_context_unref` calls — one from
`Camera`'s own `Drop` body and a second from the drop of its owned `Context`
field — so the context is unreferenced twice, not exactly once. -/
theorem camera_drop_unrefs_context_twice :
    autodetectCalls.count NativeCall.gp_context_new = 1 ∧
    autodetectCalls.count NativeCall.gp_context_ref = 0 ∧
    cameraDropEvents.count NativeCall.gp_context_unref = 2 ∧
    cameraDropEvents.count NativeCall.gp_context_unref ≠ 1 ∧
    cameraDropEvents.count NativeCall.gp_camera_unref = 1 := by
  refine ⟨by decide, by decide, by decide, by decide, by decide⟩

/-- C9: the claim that the Initialized/Capturing state machine is reset
between two sequential captures is violated by the code: starting from the
`initialized` state that `autodetect` establishes, `capture_image`
unconditionally calls `gp_camera_exit` after the capture and contains no
`gp_camera_init`, so the device is left in the de-initialized `exited` state
and the second `capture_image` issues its `gp_camera_capture` from that stale
state, not from `initialized`. -/
theorem capture_image_leaves_camera_exited :
    runCam .created autodetectCalls = CamState.initialized ∧
    runCam (runCam .created autodetectCalls) captureImageCalls = CamState.exited ∧
    NativeCall.gp_camera_init ∉ captureImageCalls ∧
    CamState.exited ≠ CamState.initialized := by
  refine ⟨by decide, by decide, by decide, by decide⟩

end Gphoto
